import Mathlib

/-!
Verification of the runtime binary-patching utility in `src/lib.rs`.

The crate patches `std::fmt::DebugTuple::field` in place: it resolves a
patch site at a fixed offset from the function's entry, verifies the bytes
there are one of two recognized per-architecture encodings, temporarily
grants read/write/execute permission on the page, and writes either the
patched or the original encoding.

We embed the crate shallowly: memory is a function `Int → Nat` from byte
addresses to byte values, the two supported architectures are an inductive
type, and `enable` is a pure function returning the outcome (normal return
or which panic fired), the resulting memory, whether a permission change
was requested, and the resolved site address.
-/

/-- The two supported target architectures (`x86_64` and `aarch64`);
any other target is rejected at build time by `compile_error!`. -/
inductive Arch where
  | x86_64
  | aarch64
deriving DecidableEq, Repr

/-- `const ORIGINAL`: the expected unmodified instruction encoding,
per architecture (`[0x75, 0x3E]` on x86_64, `[0x00, 0xD0, 0x08, 0x05]`
on aarch64). -/
def ORIGINAL : Arch → List Nat
  | .x86_64 => [0x75, 0x3E]
  | .aarch64 => [0x00, 0xD0, 0x08, 0x05]

/-- `const PATCHED`: the substituted neutral instruction encoding,
per architecture (`[0x66, 0x90]` on x86_64, `[0x1F, 0x20, 0x03, 0xD5]`
on aarch64). -/
def PATCHED : Arch → List Nat
  | .x86_64 => [0x66, 0x90]
  | .aarch64 => [0x1F, 0x20, 0x03, 0xD5]

/-- The width of the patch site in bytes: the pointer is cast to
`*mut [u8; 2]` on x86_64 and `*mut [u8; 4]` on aarch64, and the
protected range is `size_of_val(&ORIGINAL)` bytes. -/
def width : Arch → Nat
  | .x86_64 => 2
  | .aarch64 => 4

/-- A byte-addressed memory: each `Int` address holds one byte value. -/
def Mem : Type := Int → Nat

/-- `function.offset(0x46)`: the patch-site address, computed from the
target function's entry address by pure pointer arithmetic. -/
def resolveSite (entry : Int) : Int := entry + 0x46

/-- Read `w` consecutive bytes starting at `addr` (the dereference
`*ptr` of the `*mut [u8; w]` pointer). -/
def readBytes (mem : Mem) (addr : Int) (w : Nat) : List Nat :=
  (List.range w).map fun i : Nat => mem (addr + (i : Int))

/-- Write the byte list `bs` at consecutive addresses starting at `addr`
(the store `ptr.write(...)` of a `[u8; w]` value); addresses outside
`[addr, addr + bs.length)` are untouched. -/
def writeBytes (mem : Mem) (addr : Int) (bs : List Nat) : Mem :=
  fun a => if addr ≤ a ∧ a < addr + (bs.length : Int) then bs.getD (a - addr).toNat 0 else mem a

/-- The two ways `enable` can panic: the byte-pattern verification fails
(`panic!("DebugTuple::field is not as expected")`), or the platform
denies the permission change (`region::protect_with_handle(...).unwrap()`
panics). -/
inductive PatchError where
  | verifyMismatch
  | protectionDenied
deriving DecidableEq, Repr

/-- The observable outcome of one call to `enable`: whether it returned
normally or panicked, the memory afterwards, whether a page-permission
change was requested, and the resolved patch-site address. -/
structure EnableOutcome where
  res : Except PatchError Unit
  mem : Mem
  protRequested : Bool
  site : Int

/-- `pub unsafe fn enable(enabled: bool)` from `src/lib.rs`, parametrized by
the architecture, by whether the platform grants the permission change
(`protGrant`), by the entry address of `std::fmt::DebugTuple::field`
(`entry`), and by the current memory. It resolves the site at
`entry + 0x46`, reads `width` bytes there, panics if they match neither
`ORIGINAL` nor `PATCHED`, otherwise requests read/write/execute
permission (panicking if denied) and writes `PATCHED` if `enabled` is true,
else `ORIGINAL`. -/
def enable (arch : Arch) (enabled : Bool) (protGrant : Bool) (entry : Int) (mem : Mem) :
    EnableOutcome :=
  let ptr := resolveSite entry
  let cur := readBytes mem ptr (width arch)
  if cur = ORIGINAL arch ∨ cur = PATCHED arch then
    if protGrant then
      ⟨.ok (), writeBytes mem ptr (if enabled then PATCHED arch else ORIGINAL arch), true, ptr⟩
    else
      ⟨.error .protectionDenied, mem, true, ptr⟩
  else
    ⟨.error .verifyMismatch, mem, false, ptr⟩

/-- The bytes currently at the patch site for entry address `entry`. -/
def siteBytes (arch : Arch) (entry : Int) (mem : Mem) : List Nat :=
  readBytes mem (resolveSite entry) (width arch)

/-- The site is in one of the two recognized encodings. -/
def Recognized (arch : Arch) (entry : Int) (mem : Mem) : Prop :=
  siteBytes arch entry mem = ORIGINAL arch ∨ siteBytes arch entry mem = PATCHED arch

instance (arch : Arch) (entry : Int) (mem : Mem) : Decidable (Recognized arch entry mem) := by
  unfold Recognized; infer_instance

/- ### Basic lemmas about the memory model -/

lemma writeBytes_getD (mem : Mem) (addr : Int) (bs : List Nat) (i : Nat) (hi : i < bs.length) :
    writeBytes mem addr bs (addr + (i : Int)) = bs.getD i 0 := by
  unfold writeBytes
  have h1 : addr ≤ addr + (i : Int) := by omega
  have h2 : addr + (i : Int) < addr + (bs.length : Int) := by
    have : (i : Int) < (bs.length : Int) := by exact_mod_cast hi
    omega
  rw [if_pos ⟨h1, h2⟩]
  congr 1
  omega

/-- Reading back exactly the bytes just written returns them. -/
lemma readBytes_writeBytes (mem : Mem) (addr : Int) (bs : List Nat) :
    readBytes (writeBytes mem addr bs) addr bs.length = bs := by
  unfold readBytes
  apply List.ext_getElem
  · simp
  · intro i h1 h2
    simp only [List.getElem_map, List.getElem_range]
    have hi : i < bs.length := by simpa using h2
    rw [writeBytes_getD mem addr bs i hi, List.getD_eq_getElem bs 0 hi]

lemma length_ORIGINAL (arch : Arch) : (ORIGINAL arch).length = width arch := by
  cases arch <;> rfl

lemma length_PATCHED (arch : Arch) : (PATCHED arch).length = width arch := by
  cases arch <;> rfl

/-- After a successful `enable`, the site holds exactly the target encoding. -/
lemma siteBytes_after_write (arch : Arch) (enabled : Bool) (entry : Int) (mem : Mem) :
    siteBytes arch entry
      (writeBytes mem (resolveSite entry) (if enabled then PATCHED arch else ORIGINAL arch))
      = (if enabled then PATCHED arch else ORIGINAL arch) := by
  unfold siteBytes
  have hlen : (if enabled then PATCHED arch else ORIGINAL arch).length = width arch := by
    cases enabled <;> simp [length_ORIGINAL, length_PATCHED]
  rw [← hlen]
  exact readBytes_writeBytes mem (resolveSite entry) _


/-- `enable` written as a case split on the verification outcome and the
permission grant; this is the unfolding of the definition with the
verification condition folded back into `Recognized`. -/
lemma enable_eq (arch : Arch) (b g : Bool) (entry : Int) (mem : Mem) :
    enable arch b g entry mem =
      if Recognized arch entry mem then
        if g then
          ⟨.ok (), writeBytes mem (resolveSite entry)
            (if b then PATCHED arch else ORIGINAL arch), true, resolveSite entry⟩
        else
          ⟨.error .protectionDenied, mem, true, resolveSite entry⟩
      else
        ⟨.error .verifyMismatch, mem, false, resolveSite entry⟩ := by
  unfold enable Recognized siteBytes
  rcases em (readBytes mem (resolveSite entry) (width arch) = ORIGINAL arch ∨
      readBytes mem (resolveSite entry) (width arch) = PATCHED arch) with hc | hc
  · rw [if_pos hc]
  · rw [if_neg hc]

/-- With a recognized site and the permission change granted, `enable`
returns normally and writes the target encoding. -/
lemma enable_recognized_granted (arch : Arch) (b : Bool) (entry : Int) (mem : Mem)
    (h : Recognized arch entry mem) :
    enable arch b true entry mem =
      ⟨.ok (), writeBytes mem (resolveSite entry) (if b then PATCHED arch else ORIGINAL arch),
        true, resolveSite entry⟩ := by
  rw [enable_eq, if_pos h, if_pos rfl]

/-- With a recognized site, the site bytes after `enable` (granted) are the
target encoding. -/
lemma siteBytes_enable (arch : Arch) (b : Bool) (entry : Int) (mem : Mem)
    (h : Recognized arch entry mem) :
    siteBytes arch entry (enable arch b true entry mem).mem
      = (if b then PATCHED arch else ORIGINAL arch) := by
  rw [enable_recognized_granted arch b entry mem h]
  exact siteBytes_after_write arch b entry mem

/-- A recognized site stays recognized across any `enable` call. -/
lemma recognized_enable (arch : Arch) (b g : Bool) (entry : Int) (mem : Mem)
    (h : Recognized arch entry mem) :
    Recognized arch entry (enable arch b g entry mem).mem := by
  cases g
  · rw [enable_eq, if_pos h]
    exact h
  · unfold Recognized
    rw [siteBytes_enable arch b entry mem h]
    cases b <;> simp [Recognized]

/-- A concrete memory holding the x86_64 `ORIGINAL` encoding at the patch
site for entry address `0`, used to instantiate the theorems below. -/
def memW : Mem := writeBytes (fun _ => 0) (resolveSite 0) (ORIGINAL Arch.x86_64)

/-- The all-zero memory: its site bytes match neither encoding. -/
def memZero : Mem := fun _ => 0

/-- C1: for every boolean `enabled` and any prior memory, a call to
`enable enabled` that returns normally leaves the bytes at the resolved
patch site equal to `PATCHED` when `enabled` is true and `ORIGINAL` when
`enabled` is false, regardless of which recognized encoding was present
before the call. -/
theorem enable_ok_sets_target (arch : Arch) (enabled protGrant : Bool) (entry : Int) (mem : Mem)
    (h : (enable arch enabled protGrant entry mem).res = Except.ok ()) :
    siteBytes arch entry (enable arch enabled protGrant entry mem).mem
      = (if enabled then PATCHED arch else ORIGINAL arch) := by
  by_cases hr : Recognized arch entry mem
  · cases protGrant
    · rw [enable_eq, if_pos hr] at h
      exact absurd h (by simp)
    · exact siteBytes_enable arch enabled entry mem hr
  · rw [enable_eq, if_neg hr] at h
    exact absurd h (by simp)

/-- Closed witness for C1 at a concrete input. -/
theorem enable_ok_sets_target_witness :
    siteBytes Arch.x86_64 0 (enable Arch.x86_64 true true 0 memW).mem
      = (if true then PATCHED Arch.x86_64 else ORIGINAL Arch.x86_64) :=
  enable_ok_sets_target Arch.x86_64 true true 0 memW rfl

/-- C2: if the bytes at the resolved site match neither encoding, `enable`
panics with the verification diagnostic, no permission change is
requested, and the memory is entirely unchanged — it never proceeds to
write. -/
theorem enable_unrecognized_aborts (arch : Arch) (enabled protGrant : Bool) (entry : Int)
    (mem : Mem) (h : ¬ Recognized arch entry mem) :
    (enable arch enabled protGrant entry mem).res = Except.error PatchError.verifyMismatch ∧
    (enable arch enabled protGrant entry mem).protRequested = false ∧
    (enable arch enabled protGrant entry mem).mem = mem := by
  rw [enable_eq, if_neg h]
  exact ⟨rfl, rfl, rfl⟩

/-- Closed witness for C2 at a concrete input. -/
theorem enable_unrecognized_aborts_witness :
    (enable Arch.x86_64 true true 0 memZero).res = Except.error PatchError.verifyMismatch ∧
    (enable Arch.x86_64 true true 0 memZero).protRequested = false ∧
    (enable Arch.x86_64 true true 0 memZero).mem = memZero :=
  enable_unrecognized_aborts Arch.x86_64 true true 0 memZero (by decide)

/-- C3: starting from a recognized site, calling `enable b` twice in
succession leaves the bytes at the patch site in exactly the same state as
calling it once. -/
theorem enable_idempotent (arch : Arch) (b : Bool) (entry : Int) (mem : Mem)
    (h : Recognized arch entry mem) :
    siteBytes arch entry (enable arch b true entry (enable arch b true entry mem).mem).mem
      = siteBytes arch entry (enable arch b true entry mem).mem := by
  rw [siteBytes_enable arch b entry mem h,
    siteBytes_enable arch b entry _ (recognized_enable arch b true entry mem h)]

/-- Closed witness for C3 at a concrete input. -/
theorem enable_idempotent_witness :
    siteBytes Arch.x86_64 0
        (enable Arch.x86_64 true true 0 (enable Arch.x86_64 true true 0 memW).mem).mem
      = siteBytes Arch.x86_64 0 (enable Arch.x86_64 true true 0 memW).mem :=
  enable_idempotent Arch.x86_64 true 0 memW (by decide)

/-- A finite sequence of `enable` calls (permission changes granted),
folded over memory. -/
def runToggles (arch : Arch) (entry : Int) (seq : List Bool) (mem : Mem) : Mem :=
  seq.foldl (fun m b => (enable arch b true entry m).mem) mem

/-- `runToggles` preserves recognition of the site. -/
lemma recognized_runToggles (arch : Arch) (entry : Int) (seq : List Bool) (mem : Mem)
    (h : Recognized arch entry mem) :
    Recognized arch entry (runToggles arch entry seq mem) := by
  induction seq generalizing mem with
  | nil => exact h
  | cons b rest ih =>
    exact ih ((enable arch b true entry mem).mem) (recognized_enable arch b true entry mem h)

/-- C4: for every sequence of `enable` calls whose last call is
`enable false`, starting from a recognized site, the bytes at the patch
site afterwards equal the architecture-specific `ORIGINAL` encoding
exactly. -/
theorem enable_round_trip (arch : Arch) (entry : Int) (seq : List Bool) (mem : Mem)
    (h : Recognized arch entry mem) :
    siteBytes arch entry (runToggles arch entry (seq ++ [false]) mem) = ORIGINAL arch := by
  unfold runToggles
  rw [List.foldl_append]
  have hrec := recognized_runToggles arch entry seq mem h
  simpa using siteBytes_enable arch false entry (runToggles arch entry seq mem) hrec

/-- Closed witness for C4 at a concrete input. -/
theorem enable_round_trip_witness :
    siteBytes Arch.x86_64 0 (runToggles Arch.x86_64 0 ([true, true] ++ [false]) memW)
      = ORIGINAL Arch.x86_64 :=
  enable_round_trip Arch.x86_64 0 [true, true] memW (by decide)

/-- C5: if the site bytes equal one of the two recognized encodings
before a call to `enable` (either argument, permission granted or
denied), they still equal one of the two encodings after the call,
whether it returns normally or aborts. -/
theorem enable_preserves_invariant (arch : Arch) (enabled protGrant : Bool) (entry : Int)
    (mem : Mem) (h : Recognized arch entry mem) :
    Recognized arch entry (enable arch enabled protGrant entry mem).mem :=
  recognized_enable arch enabled protGrant entry mem h

/-- Closed witness for C5 at a concrete input. -/
theorem enable_preserves_invariant_witness :
    Recognized Arch.x86_64 0 (enable Arch.x86_64 true false 0 memW).mem :=
  enable_preserves_invariant Arch.x86_64 true false 0 memW (by decide)

/-- C6: if the platform denies the permission change, `enable` panics
(`unwrap` on the denied protection result) and no bytes are written: the
memory is unchanged. -/
theorem enable_protection_denied_aborts (arch : Arch) (enabled : Bool) (entry : Int) (mem : Mem)
    (h : Recognized arch entry mem) :
    (enable arch enabled false entry mem).res = Except.error PatchError.protectionDenied ∧
    (enable arch enabled false entry mem).mem = mem := by
  rw [enable_eq, if_pos h]
  exact ⟨rfl, rfl⟩

/-- Closed witness for C6 at a concrete input. -/
theorem enable_protection_denied_aborts_witness :
    (enable Arch.x86_64 true false 0 memW).res = Except.error PatchError.protectionDenied ∧
    (enable Arch.x86_64 true false 0 memW).mem = memW :=
  enable_protection_denied_aborts Arch.x86_64 true 0 memW (by decide)

/-- C8: for each supported architecture, `ORIGINAL` and `PATCHED` are
constants of identical length, and that length — the site width — is
2 bytes on x86_64 and 4 bytes on aarch64. -/
theorem byte_tables_fixed_width :
    (∀ arch, (ORIGINAL arch).length = width arch ∧ (PATCHED arch).length = width arch) ∧
    width Arch.x86_64 = 2 ∧ width Arch.aarch64 = 4 := by
  refine ⟨fun arch => ?_, rfl, rfl⟩
  cases arch <;> exact ⟨rfl, rfl⟩

/-- C9: on every call — whatever the architecture, argument, permission
outcome, entry address or memory — `enable` resolves the patch site as
the entry address of the target function plus the fixed offset `0x46`, a
pure computation repeated on each call with nothing cached between
calls. -/
theorem enable_site_resolution (arch : Arch) (enabled protGrant : Bool) (entry : Int)
    (mem : Mem) :
    (enable arch enabled protGrant entry mem).site = resolveSite entry ∧
    resolveSite entry = entry + 0x46 := by
  constructor
  · rw [enable_eq]
    rcases em (Recognized arch entry mem) with h | h
    · rw [if_pos h]; cases protGrant <;> rfl
    · rw [if_neg h]
  · rfl

/-- C10: on each supported architecture the two encodings are distinct,
so the three-way classification of the site bytes is unambiguous. -/
theorem original_ne_patched : ∀ arch, ORIGINAL arch ≠ PATCHED arch := by
  intro arch
  cases arch <;> decide

/- ### Observable formatting behavior (C7)

The formatting routine being patched, `std::fmt::DebugTuple::field`, is an
external collaborator: its code is not part of this repository, which only
carries the test asserting its before/after output. We therefore model the
two relevant `Debug` builders from the spec's collaborator contract and
concrete scenario, and couple the tuple builder's layout decision to the
live bytes at the patch site. -/

/-- Whether the patch is active: the live bytes at the site equal the
`PATCHED` encoding. There is no stored state; this is read from memory. -/
def patchActive (arch : Arch) (entry : Int) (mem : Mem) : Bool :=
  decide (siteBytes arch entry mem = PATCHED arch)

/-- Modelled from the spec: the positional (`DebugTuple`) builder, which is
supplied by the standard library and is not part of this repository. A
value `name(f1, ..., fn)` prints compactly as `name(f1, ..., fn)`; in
expanded (`{:#?}`) mode it prints one field per line, indented four spaces
with a trailing comma. The patched encoding neutralizes the expanded-mode
branch inside `DebugTuple::field`, so the expanded layout is taken only
when the alternate flag is set and the patch is not active. -/
def debugTupleFmt (patched alternate : Bool) (name : String) (fields : List String) : String :=
  if alternate && !patched then
    name ++ "(\n" ++ String.join (fields.map fun f => "    " ++ f ++ ",\n") ++ ")"
  else
    name ++ "(" ++ String.intercalate ", " fields ++ ")"

/-- Modelled from the spec: the named-field (`DebugStruct`) builder, also
supplied by the standard library. It does not contain the patch site, so
its output depends only on the alternate flag (the spec's
non-interference property). -/
def debugStructFmt (alternate : Bool) (name : String) (fields : List (String × String)) :
    String :=
  if alternate then
    name ++ " \x7b\n" ++ String.join (fields.map fun p => "    " ++ p.1 ++ ": " ++ p.2 ++ ",\n")
      ++ "\x7d"
  else
    name ++ " \x7b " ++ String.intercalate ", " (fields.map fun p => p.1 ++ ": " ++ p.2)
      ++ " \x7d"

/-- The test value `A(8, 32)` formatted under the current memory. -/
def fmtA (arch : Arch) (entry : Int) (mem : Mem) (alternate : Bool) : String :=
  debugTupleFmt (patchActive arch entry mem) alternate "A" ["8", "32"]

/-- The test value `B { x: 8, y: 32 }` formatted; by the modelled
non-interference property it does not read the patch site. -/
def fmtB (alternate : Bool) : String :=
  debugStructFmt alternate "B" [("x", "8"), ("y", "32")]

lemma ORIGINAL_ne_PATCHED (arch : Arch) : ORIGINAL arch ≠ PATCHED arch := by
  cases arch <;> decide

/-- C7: from a recognized site, after `enable true` the expanded format of
`A(8, 32)` collapses to the single line `A(8, 32)` while `B`'s expanded
format is the unchanged multi-line record form; after a further
`enable false` the expanded format of `A` returns exactly to the original
multi-line form; the compact formats of `A` and `B` are unchanged
throughout. -/
theorem patch_behavioral_correlation (arch : Arch) (entry : Int) (mem : Mem)
    (h : Recognized arch entry mem) :
    fmtA arch entry (enable arch true true entry mem).mem true = "A(8, 32)" ∧
    fmtA arch entry (enable arch false true entry (enable arch true true entry mem).mem).mem true
      = "A(\n    8,\n    32,\n)" ∧
    fmtA arch entry (enable arch true true entry mem).mem false = "A(8, 32)" ∧
    fmtA arch entry (enable arch false true entry (enable arch true true entry mem).mem).mem false
      = "A(8, 32)" ∧
    fmtB true = "B \x7b\n    x: 8,\n    y: 32,\n\x7d" ∧
    fmtB false = "B \x7b x: 8, y: 32 \x7d" := by
  have h1 : siteBytes arch entry (enable arch true true entry mem).mem = PATCHED arch := by
    simpa using siteBytes_enable arch true entry mem h
  have hrec1 : Recognized arch entry (enable arch true true entry mem).mem :=
    recognized_enable arch true true entry mem h
  have h2 : siteBytes arch entry
      (enable arch false true entry (enable arch true true entry mem).mem).mem
      = ORIGINAL arch := by
    simpa using siteBytes_enable arch false entry (enable arch true true entry mem).mem hrec1
  have hA1 : patchActive arch entry (enable arch true true entry mem).mem = true := by
    unfold patchActive
    rw [h1]
    simp
  have hA2 : patchActive arch entry
      (enable arch false true entry (enable arch true true entry mem).mem).mem = false := by
    unfold patchActive
    rw [h2]
    simp [ORIGINAL_ne_PATCHED arch]
  refine ⟨?_, ?_, ?_, ?_, rfl, rfl⟩ <;>
    simp [fmtA, hA1, hA2, debugTupleFmt] <;> rfl

/-- Closed witness for C7 at a concrete input. -/
theorem patch_behavioral_correlation_witness :
    fmtA Arch.x86_64 0 (enable Arch.x86_64 true true 0 memW).mem true = "A(8, 32)" ∧
    fmtA Arch.x86_64 0
        (enable Arch.x86_64 false true 0 (enable Arch.x86_64 true true 0 memW).mem).mem true
      = "A(\n    8,\n    32,\n)" ∧
    fmtA Arch.x86_64 0 (enable Arch.x86_64 true true 0 memW).mem false = "A(8, 32)" ∧
    fmtA Arch.x86_64 0
        (enable Arch.x86_64 false true 0 (enable Arch.x86_64 true true 0 memW).mem).mem false
      = "A(8, 32)" ∧
    fmtB true = "B \x7b\n    x: 8,\n    y: 32,\n\x7d" ∧
    fmtB false = "B \x7b x: 8, y: 32 \x7d" :=
  patch_behavioral_correlation Arch.x86_64 0 memW (by decide)
